import Mathlib

/-!
# Verification of the performance-monitoring core

Shallow embedding of `src/src/utils/performance_monitor.cpp` and the metric
structures of `src/include/types.hpp` (namespace `arbitrage`).  C++ `double`
values are modelled as rationals (`ℚ`); every concrete value appearing in the
claims (10, 20, 30, 5, 16.25, 90, …) is exactly representable in binary64, so
the rational model agrees with the C++ arithmetic on them.  `uint64_t`
arithmetic is modelled as natural numbers reduced modulo `2 ^ 64`.  The
background thread is modelled by a count of live background execution
contexts; atomic read-modify-write operations are modelled as single
indivisible steps of a sequential trace.
-/

namespace Arbitrage

/-- The three alert kinds handled by `PerformanceMonitor::checkAlerts`. -/
inductive AlertKind where
  | latency
  | memory
  | cpu
deriving DecidableEq, Repr

/-- `arbitrage::AtomicPerformanceMetrics` (types.hpp): counters and gauges.
`std::atomic<uint64_t>` counters become `Nat`, `std::atomic<double>` gauges
become `ℚ`. -/
structure AtomicPerformanceMetrics where
  messages_processed : Nat
  opportunities_detected : Nat
  trades_executed : Nat
  average_latency_ms : ℚ
  max_latency_ms : ℚ
  memory_usage_mb : ℚ
  cpu_usage_percentage : ℚ
deriving DecidableEq, Repr

/-- The state of `arbitrage::PerformanceMonitor` (performance_monitor.hpp).
`monitoring_thread_` is modelled by `active_threads`, the number of live
background execution contexts (spawn adds one, join removes one).  The three
`AlertCallback` members are modelled by presence flags; the callable behaviour
is passed separately where needed.  `initialized` is a ghost flag recording
whether `initialize` has been called; the C++ object has no such member, which
is exactly what claim C8 is about. -/
structure PerformanceMonitor where
  metrics : AtomicPerformanceMetrics
  running : Bool
  monitoring_enabled : Bool
  active_threads : Nat
  monitoring_interval_ms : Int
  latency_count : Nat
  latency_sum : ℚ
  latency_alert_callback : Bool
  memory_alert_callback : Bool
  cpu_alert_callback : Bool
  latency_threshold_ms : ℚ
  memory_threshold_mb : ℚ
  cpu_threshold_percentage : ℚ
  last_cpu_time : Nat
  initialized : Bool
deriving DecidableEq, Repr

/-- A default-constructed monitor: all member initializers of
`performance_monitor.hpp` (counters and gauges zero, `running_{false}`,
`monitoring_interval_ms_{1000}`, thresholds `0.0`, no callbacks installed,
`last_cpu_time_{0}`).  `initialize` has not been called. -/
def fresh : PerformanceMonitor where
  metrics :=
    { messages_processed := 0
      opportunities_detected := 0
      trades_executed := 0
      average_latency_ms := 0
      max_latency_ms := 0
      memory_usage_mb := 0
      cpu_usage_percentage := 0 }
  running := false
  monitoring_enabled := false
  active_threads := 0
  monitoring_interval_ms := 1000
  latency_count := 0
  latency_sum := 0
  latency_alert_callback := false
  memory_alert_callback := false
  cpu_alert_callback := false
  latency_threshold_ms := 0
  memory_threshold_mb := 0
  cpu_threshold_percentage := 0
  last_cpu_time := 0
  initialized := false

/-- `PerformanceMonitor::recordLatency` (performance_monitor.cpp:70-85).
The compare-exchange loop on `max_latency_ms` updates the maximum exactly when
the new value is strictly greater; the mutex-protected section increments the
count, adds to the sum and stores `new_sum / count` as the average. -/
def recordLatency (m : PerformanceMonitor) (latency_ms : ℚ) : PerformanceMonitor :=
  let new_max :=
    if m.metrics.max_latency_ms < latency_ms then latency_ms else m.metrics.max_latency_ms
  let count := m.latency_count + 1
  let new_sum := m.latency_sum + latency_ms
  { m with
    metrics :=
      { m.metrics with
        max_latency_ms := new_max
        average_latency_ms := new_sum / (count : ℚ) }
    latency_count := count
    latency_sum := new_sum }

/-- Record a whole sequence of latencies into a fresh monitor. -/
def recordAll (xs : List ℚ) : PerformanceMonitor :=
  xs.foldl recordLatency fresh

theorem recordAll_append (xs : List ℚ) (x : ℚ) :
    recordAll (xs ++ [x]) = recordLatency (recordAll xs) x := by
  simp [recordAll, List.foldl_append]

theorem if_lt_eq_max (a b : ℚ) : (if a < b then b else a) = max a b := by
  rcases lt_or_le a b with h | h
  · simp [h, max_eq_right h.le]
  · simp [not_lt.mpr h, max_eq_left h]

/-- The latency accumulator after replaying a sequence of records: the sum and
count fields track the list, the average is always `sum / count`, and the
stored maximum is the maximum of the recorded values and the initial `0`. -/
theorem recordAll_state (xs : List ℚ) :
    (recordAll xs).latency_sum = xs.sum ∧
    (recordAll xs).latency_count = xs.length ∧
    (recordAll xs).metrics.average_latency_ms = xs.sum / (xs.length : ℚ) ∧
    (recordAll xs).metrics.max_latency_ms = xs.foldl max 0 := by
  induction xs using List.reverseRecOn with
  | nil =>
    refine ⟨rfl, rfl, ?_, rfl⟩
    simp [recordAll, fresh]
  | append_singleton xs x ih =>
    obtain ⟨hsum, hcount, _, hmax⟩ := ih
    rw [recordAll_append]
    refine ⟨?_, ?_, ?_, ?_⟩
    · simp [recordLatency, hsum]
    · simp [recordLatency, hcount]
    · simp only [recordLatency, List.sum_append, List.length_append, List.sum_cons,
        List.sum_nil, List.length_cons, List.length_nil]

      rw [hsum, hcount]
      push_cast
      ring_nf
    · simp only [recordLatency, List.foldl_append, List.foldl_cons, List.foldl_nil]
      rw [hmax, if_lt_eq_max]

/-- `PerformanceMonitor::recordMessageProcessed` (performance_monitor.cpp:58-60):
an atomic `fetch_add(1)` on the messages counter. -/
def recordMessageProcessed (m : PerformanceMonitor) : PerformanceMonitor :=
  { m with
    metrics := { m.metrics with messages_processed := m.metrics.messages_processed + 1 } }

/-- `PerformanceMonitor::recordOpportunityDetected` (performance_monitor.cpp:62-64). -/
def recordOpportunityDetected (m : PerformanceMonitor) : PerformanceMonitor :=
  { m with
    metrics :=
      { m.metrics with opportunities_detected := m.metrics.opportunities_detected + 1 } }

/-- `PerformanceMonitor::recordTradeExecuted` (performance_monitor.cpp:66-68). -/
def recordTradeExecuted (m : PerformanceMonitor) : PerformanceMonitor :=
  { m with
    metrics := { m.metrics with trades_executed := m.metrics.trades_executed + 1 } }

/-- `PerformanceMonitor::recordMemoryUsage` (performance_monitor.cpp:87-89):
an atomic store into the memory gauge. -/
def recordMemoryUsage (m : PerformanceMonitor) (memory_mb : ℚ) : PerformanceMonitor :=
  { m with metrics := { m.metrics with memory_usage_mb := memory_mb } }

/-- `PerformanceMonitor::recordCpuUsage` (performance_monitor.cpp:91-93). -/
def recordCpuUsage (m : PerformanceMonitor) (cpu_percentage : ℚ) : PerformanceMonitor :=
  { m with metrics := { m.metrics with cpu_usage_percentage := cpu_percentage } }

/-- `PerformanceMonitor::resetMetrics` (performance_monitor.cpp:112-118): calls
`AtomicPerformanceMetrics::reset` (types.hpp:220-228), which stores zero into
every counter and gauge, then zeroes `latency_count_` and `latency_sum_`. -/
def resetMetrics (m : PerformanceMonitor) : PerformanceMonitor :=
  { m with
    metrics :=
      { m.metrics with
        messages_processed := 0
        opportunities_detected := 0
        trades_executed := 0
        average_latency_ms := 0
        max_latency_ms := 0
        memory_usage_mb := 0
        cpu_usage_percentage := 0 }
    latency_count := 0
    latency_sum := 0 }

/-- `PerformanceMonitor::getAverageLatency` (performance_monitor.cpp:132-134). -/
def getAverageLatency (m : PerformanceMonitor) : ℚ :=
  m.metrics.average_latency_ms

/-- `PerformanceMonitor::getMaxLatency` (performance_monitor.cpp:136-138). -/
def getMaxLatency (m : PerformanceMonitor) : ℚ :=
  m.metrics.max_latency_ms

/-- `PerformanceMonitor::getMemoryUsage` (performance_monitor.cpp:140-142). -/
def getMemoryUsage (m : PerformanceMonitor) : ℚ :=
  m.metrics.memory_usage_mb

/-- `PerformanceMonitor::getCpuUsage` (performance_monitor.cpp:144-146). -/
def getCpuUsage (m : PerformanceMonitor) : ℚ :=
  m.metrics.cpu_usage_percentage

/-- `PerformanceMonitor::isLatencyWithinThreshold` (performance_monitor.cpp:148-150):
`getAverageLatency() <= threshold_ms`. -/
def isLatencyWithinThreshold (m : PerformanceMonitor) (threshold_ms : ℚ) : Bool :=
  decide (getAverageLatency m ≤ threshold_ms)

/-- `PerformanceMonitor::isMemoryWithinThreshold` (performance_monitor.cpp:152-154). -/
def isMemoryWithinThreshold (m : PerformanceMonitor) (threshold_mb : ℚ) : Bool :=
  decide (getMemoryUsage m ≤ threshold_mb)

/-- `PerformanceMonitor::isCpuWithinThreshold` (performance_monitor.cpp:156-158). -/
def isCpuWithinThreshold (m : PerformanceMonitor) (threshold_percentage : ℚ) : Bool :=
  decide (getCpuUsage m ≤ threshold_percentage)

/-- `PerformanceMonitor::setLatencyAlertCallback` (performance_monitor.cpp:160-163):
installs the callback (modelled as the presence flag) and the threshold. -/
def setLatencyAlertCallback (m : PerformanceMonitor) (hasCallback : Bool)
    (threshold_ms : ℚ) : PerformanceMonitor :=
  { m with latency_alert_callback := hasCallback, latency_threshold_ms := threshold_ms }

/-- `PerformanceMonitor::setMemoryAlertCallback` (performance_monitor.cpp:165-168). -/
def setMemoryAlertCallback (m : PerformanceMonitor) (hasCallback : Bool)
    (threshold_mb : ℚ) : PerformanceMonitor :=
  { m with memory_alert_callback := hasCallback, memory_threshold_mb := threshold_mb }

/-- `PerformanceMonitor::setCpuAlertCallback` (performance_monitor.cpp:170-173). -/
def setCpuAlertCallback (m : PerformanceMonitor) (hasCallback : Bool)
    (threshold_percentage : ℚ) : PerformanceMonitor :=
  { m with cpu_alert_callback := hasCallback, cpu_threshold_percentage := threshold_percentage }

/-- `PerformanceMonitor::initialize` (performance_monitor.cpp:21-30): stores the
interval, resets the CPU baseline, logs, and returns `true` unconditionally.
The ghost flag `initialized` records that it ran. -/
def initMonitor (m : PerformanceMonitor) (monitoring_interval_ms : Int) :
    PerformanceMonitor × Bool :=
  ({ m with
      monitoring_interval_ms := monitoring_interval_ms
      last_cpu_time := 0
      initialized := true }, true)

/-- `PerformanceMonitor::start` (performance_monitor.cpp:32-42).  `running_.exchange(true)`
returning `true` means already running: log a warning and return without
spawning.  Otherwise set `monitoring_enabled_` and spawn the monitoring
thread.  The returned `Bool` is `true` when the already-running warning was
emitted. -/
def start (m : PerformanceMonitor) : PerformanceMonitor × Bool :=
  if m.running then
    (m, true)
  else
    ({ m with
        running := true
        monitoring_enabled := true
        active_threads := m.active_threads + 1 }, false)

/-- `PerformanceMonitor::stop` (performance_monitor.cpp:44-56).  `running_.exchange(false)`
returning `false` means not running: return immediately.  Otherwise clear
`monitoring_enabled_` and join the monitoring thread (one background execution
context ends). -/
def stop (m : PerformanceMonitor) : PerformanceMonitor :=
  if m.running then
    { m with
      running := false
      monitoring_enabled := false
      active_threads := m.active_threads - 1 }
  else
    m

/-- An operator-facing lifecycle call: `start()` or `stop()`. -/
inductive LifecycleOp where
  | startOp
  | stopOp
deriving DecidableEq, Repr

/-- Apply one lifecycle call to the monitor state. -/
def applyOp (m : PerformanceMonitor) : LifecycleOp → PerformanceMonitor
  | LifecycleOp.startOp => (start m).1
  | LifecycleOp.stopOp => stop m

/-- Replay a sequence of `start()`/`stop()` calls on a fresh monitor. -/
def applyOps (ops : List LifecycleOp) : PerformanceMonitor :=
  ops.foldl applyOp fresh

/-- `PerformanceMonitor::checkAlerts` (performance_monitor.cpp:267-297), condition
structure: for each kind, in source order latency, memory, cpu, the callback is
invoked exactly when the callback is installed, the threshold is strictly
positive, and the current gauge value strictly exceeds the threshold.  The
result is the list of alert kinds whose callback gets invoked this pass. -/
def checkAlertsFired (m : PerformanceMonitor) : List AlertKind :=
  (if m.latency_alert_callback = true ∧ 0 < m.latency_threshold_ms ∧
      m.latency_threshold_ms < getAverageLatency m then
    [AlertKind.latency]
  else []) ++
  (if m.memory_alert_callback = true ∧ 0 < m.memory_threshold_mb ∧
      m.memory_threshold_mb < getMemoryUsage m then
    [AlertKind.memory]
  else []) ++
  (if m.cpu_alert_callback = true ∧ 0 < m.cpu_threshold_percentage ∧
      m.cpu_threshold_percentage < getCpuUsage m then
    [AlertKind.cpu]
  else [])

/-- Invoke the callbacks of the fired alert kinds in order.  A callback is a
possibly-throwing action, modelled as `Except String Unit`.  `checkAlerts` has
no handler of its own, so the first exception aborts the remaining
invocations and propagates.  Returns the kinds actually invoked and the
propagated exception, if any. -/
def runAlerts (cb : AlertKind → Except String Unit) : List AlertKind →
    List AlertKind × Option String
  | [] => ([], none)
  | k :: ks =>
    match cb k with
    | Except.ok _ =>
      let rest := runAlerts cb ks
      (k :: rest.1, rest.2)
    | Except.error e => ([k], some e)

/-- One `checkAlerts()` call with callback behaviour `cb`: the kinds whose
callback was invoked, and the exception escaping `checkAlerts`, if any. -/
def checkAlertsRun (m : PerformanceMonitor) (cb : AlertKind → Except String Unit) :
    List AlertKind × Option String :=
  runAlerts cb (checkAlertsFired m)

/-- One iteration of `PerformanceMonitor::monitoringLoop`
(performance_monitor.cpp:175-205): if monitoring is enabled, store the sampled
memory and CPU gauges, run `checkAlerts()`, and loop again; the whole body sits
in a `try`/`catch` that logs any exception and continues, so both the normal
and the throwing outcome of `checkAlerts` continue the loop.  The returned
`Bool` says whether the loop runs another iteration. -/
def monitoringLoopStep (m : PerformanceMonitor) (cb : AlertKind → Except String Unit)
    (memv cpuv : ℚ) : PerformanceMonitor × Bool :=
  if m.monitoring_enabled then
    let m2 := recordCpuUsage (recordMemoryUsage m memv) cpuv
    match (checkAlertsRun m2 cb).2 with
    | some _ => (m2, true)
    | none => (m2, true)
  else
    (m, false)

/-- `uint64_t` subtraction: `a - b` reduced modulo `2 ^ 64` (operands are
themselves reduced first, so the definition is total on `Nat`). -/
def u64sub (a b : Nat) : Nat :=
  (a % 2 ^ 64 + 2 ^ 64 - b % 2 ^ 64) % 2 ^ 64

/-- The delta computation of `PerformanceMonitor::getCurrentCpuUsage`
(performance_monitor.cpp:221-265), given the stored baseline `last_cpu_time_`
(the previous *total* time — the code keeps no idle baseline) and the freshly
parsed `idle_time`/`total_time` of this sample, assuming the wall-clock guard
`time_diff > 0` holds (one tick has elapsed).  Returns the reported CPU usage
and the new `last_cpu_time_`; every path stores `total_time` as the new
baseline. -/
def getCurrentCpuUsage (last_cpu_time idle_time total_time : Nat) : ℚ × Nat :=
  if 0 < last_cpu_time then
    let total_diff := u64sub total_time last_cpu_time
    let idle_diff := u64sub idle_time (u64sub last_cpu_time (u64sub total_time idle_time))
    if 0 < total_diff then
      (100 * (1 - (idle_diff : ℚ) / (total_diff : ℚ)), total_time)
    else
      (0, total_time)
  else
    (0, total_time)

/-- Modelled from the spec: the corrected CPU-usage formula of §4.2, which the
repository's `getCurrentCpuUsage` was meant to implement —
`100 × (1 − (idle_t2 − idle_t1) / (total_t2 − total_t1))` when
`total_t2 > total_t1`, otherwise `0`. -/
def cpuUsageSpec (idle1 total1 idle2 total2 : Nat) : ℚ :=
  if total1 < total2 then
    100 * (1 - ((idle2 : ℚ) - (idle1 : ℚ)) / ((total2 : ℚ) - (total1 : ℚ)))
  else
    0

/-- A concurrent execution of atomic `fetch_add(1)` counter increments: each
entry of the schedule is one thread's indivisible increment (the entry records
which thread performed it), applied to the counter in interleaving order. -/
def applySchedule (sched : List Nat) (c : Nat) : Nat :=
  sched.foldl (fun acc _ => acc + 1) c

/-! ## Helper lemmas -/

theorem le_foldl_max (xs : List ℚ) (a : ℚ) : a ≤ xs.foldl max a := by
  induction xs generalizing a with
  | nil => exact le_refl a
  | cons x xs ih => exact le_trans (le_max_left a x) (ih (max a x))

theorem mem_le_foldl_max (xs : List ℚ) (a y : ℚ) (hy : y ∈ xs) : y ≤ xs.foldl max a := by
  induction xs generalizing a with
  | nil => cases hy
  | cons x xs ih =>
    simp only [List.foldl_cons]
    rcases List.mem_cons.mp hy with h | h
    · subst h
      exact le_trans (le_max_right a y) (le_foldl_max xs (max a y))
    · exact ih (max a x) h

theorem sum_div_length_le_foldl_max (xs : List ℚ) :
    xs.sum / (xs.length : ℚ) ≤ xs.foldl max 0 := by
  by_cases hx : xs = []
  · subst hx
    simp
  · have hlen : 0 < (xs.length : ℚ) := by exact_mod_cast List.length_pos.mpr hx
    rw [div_le_iff₀ hlen]
    have hbound : xs.sum ≤ xs.length • (xs.foldl max 0) :=
      List.sum_le_card_nsmul _ _ (fun x hx2 => mem_le_foldl_max _ 0 x hx2)
    rw [nsmul_eq_mul] at hbound
    linarith [hbound]

theorem runAlerts_ok (ks : List AlertKind) :
    runAlerts (fun _ => Except.ok ()) ks = (ks, none) := by
  induction ks with
  | nil => rfl
  | cons k ks ih => simp [runAlerts, ih]

/-- A lifecycle invariant: there is one live background execution context
exactly when the monitor is running. -/
def threadInvariant (m : PerformanceMonitor) : Prop :=
  m.active_threads = if m.running then 1 else 0

theorem threadInvariant_applyOp (m : PerformanceMonitor) (op : LifecycleOp)
    (h : threadInvariant m) : threadInvariant (applyOp m op) := by
  cases op with
  | startOp =>
    by_cases hr : m.running
    · simpa [applyOp, start, hr] using h
    · simp only [threadInvariant, hr, if_false] at h
      simp [applyOp, start, hr, threadInvariant, h]
  | stopOp =>
    by_cases hr : m.running
    · simp only [threadInvariant, hr, if_true] at h
      simp [applyOp, stop, hr, threadInvariant, h]
    · simpa [applyOp, stop, hr] using h

theorem threadInvariant_applyOps (ops : List LifecycleOp) :
    threadInvariant (applyOps ops) := by
  suffices h : ∀ m, threadInvariant m → threadInvariant (ops.foldl applyOp m) from
    h fresh (by simp [threadInvariant, fresh])
  induction ops with
  | nil => exact fun m h => h
  | cons op ops ih => exact fun m h => ih _ (threadInvariant_applyOp m op h)

theorem applySchedule_eq_length (sched : List Nat) (c : Nat) :
    applySchedule sched c = c + sched.length := by
  induction sched generalizing c with
  | nil => simp [applySchedule]
  | cons t sched ih =>
    simp only [applySchedule, List.foldl_cons] at ih ⊢
    rw [ih (c + 1), List.length_cons]
    omega

theorem length_eq_of_count (N M : Nat) (sched : List Nat)
    (hcount : ∀ t < N, sched.count t = M) (hmem : ∀ t ∈ sched, t < N) (hM : 0 < M) :
    sched.length = N * M := by
  have h1 : sched.toFinset = Finset.range N := by
    ext t
    simp only [List.mem_toFinset, Finset.mem_range]
    constructor
    · exact hmem t
    · intro ht
      rw [← List.count_pos_iff, hcount t ht]
      exact hM
  have h2 : ∑ a in sched.toFinset, sched.count a = sched.length := by
    simp
  rw [← h2, h1, Finset.sum_congr rfl (fun t ht => hcount t (Finset.mem_range.mp ht))]
  simp [Finset.sum_const, Finset.card_range, smul_eq_mul]

theorem count_range_flatMap_replicate (n k t : Nat) :
    ((List.range n).flatMap fun u => List.replicate k u).count t =
      if t < n then k else 0 := by
  induction n with
  | zero => simp
  | succ n ih =>
    rw [List.range_succ, List.flatMap_append, List.count_append, ih]
    simp only [List.flatMap_cons, List.flatMap_nil, List.append_nil, List.count_replicate,
      beq_iff_eq]
    rcases Nat.lt_trichotomy t n with h | h | h
    · rw [if_pos h, if_neg (by omega : ¬ n = t), if_pos (by omega : t < n + 1)]
      omega
    · subst h
      rw [if_neg (by omega : ¬ t < t), if_pos rfl, if_pos (by omega : t < t + 1)]
      omega
    · rw [if_neg (by omega : ¬ t < n), if_neg (by omega : ¬ n = t),
        if_neg (by omega : ¬ t < n + 1)]

theorem mem_range_flatMap_replicate (n k t : Nat)
    (h : t ∈ (List.range n).flatMap fun u => List.replicate k u) : t < n := by
  simp only [List.mem_flatMap, List.mem_replicate, List.mem_range] at h
  obtain ⟨u, hu, _, rfl⟩ := h
  exact hu

/-! ## Claims -/

/-- C1, counterexample: the claim says the stored max equals the maximum of all
recorded values for any sequence.  Recording the single value `-5` (negative
values are accepted verbatim) leaves the stored max at `0`, because the
compare-exchange loop only raises the maximum above its initial `0`; the
maximum of the recorded values is `-5`. -/
theorem C1_max_counterexample :
    (recordAll [(-5 : ℚ)]).metrics.max_latency_ms = 0 ∧
    [(-5 : ℚ)].maximum = ((-5 : ℚ) : WithBot ℚ) ∧
    ((0 : ℚ) : WithBot ℚ) ≠ ((-5 : ℚ) : WithBot ℚ) := by
  refine ⟨?_, ?_, ?_⟩
  · norm_num [recordAll, recordLatency, fresh]
  · simp
  · intro h
    have : (0 : ℚ) = -5 := by exact_mod_cast h
    norm_num at this

/-- C1 (amended): after any sequence of `recordLatency` calls starting from a
fresh accumulator, the stored average equals the sum of all recorded values
divided by their count, and the stored max equals the maximum of the recorded
values and the initial `0` (so it is the maximum of the recorded values
whenever any of them is nonnegative).  In particular recording 10, 20, 30
yields average 20 and max 30, and then recording 5 yields average 16.25 and
max 30. -/
theorem C1_latency_accumulator (xs : List ℚ) :
    (recordAll xs).metrics.average_latency_ms = xs.sum / (xs.length : ℚ) ∧
    (recordAll xs).metrics.max_latency_ms = xs.foldl max 0 ∧
    (recordAll [10, 20, 30]).metrics.average_latency_ms = 20 ∧
    (recordAll [10, 20, 30]).metrics.max_latency_ms = 30 ∧
    (recordAll [10, 20, 30, 5]).metrics.average_latency_ms = 65 / 4 ∧
    (recordAll [10, 20, 30, 5]).metrics.max_latency_ms = 30 := by
  obtain ⟨-, -, havg, hmax⟩ := recordAll_state xs
  refine ⟨havg, hmax, ?_, ?_, ?_, ?_⟩ <;> norm_num [recordAll, recordLatency, fresh]

/-- C2: the claim states the CPU computation returns
`100 × (1 − (idle₂ − idle₁)/(total₂ − total₁))`, hence `90` on the synthetic
samples, and that an invalid delta leaves the baseline unchanged.  The code's
inconsistent subtraction makes `idle_diff` coincide with `total_diff`, so at
the synthetic samples (baseline total `1000`, sample idle `150`, total `1500`)
it returns `0`, not the `90` demanded by the spec's corrected formula
(modelled by `cpuUsageSpec`); moreover every path stores the new total as the
baseline, even when no valid delta was available (baseline `0`). -/
theorem C2_cpu_usage_defect :
    getCurrentCpuUsage 1000 150 1500 = (0, 1500) ∧
    cpuUsageSpec 100 1000 150 1500 = 90 ∧
    ((0 : ℚ) ≠ 90) ∧
    (getCurrentCpuUsage 0 150 1500).2 = 1500 := by
  refine ⟨?_, ?_, by norm_num, ?_⟩
  · norm_num [getCurrentCpuUsage, u64sub]
  · norm_num [cpuUsageSpec]
  · norm_num [getCurrentCpuUsage]

/-- C4, counterexample: the claim asserts `average ≥ 0` after every
`recordLatency` call, with negative inputs folded in verbatim.  Recording `-1`
into a fresh accumulator leaves the count positive and the stored average at
`-1 < 0`. -/
theorem C4_counterexample :
    0 < (recordAll [(-1 : ℚ)]).latency_count ∧
    (recordAll [(-1 : ℚ)]).metrics.average_latency_ms < 0 := by
  constructor
  · norm_num [recordAll, recordLatency, fresh]
  · norm_num [recordAll, recordLatency, fresh]

/-- C4 (amended): the nonnegativity of the stored average holds when the
recorded inputs are nonnegative (a negative input makes the average negative,
see the counterexample); unconditionally, the stored average never exceeds the
stored max, and the stored max is non-decreasing across successive
`recordLatency` calls. -/
theorem C4_latency_invariants (xs : List ℚ) (m : PerformanceMonitor) (x : ℚ) :
    ((∀ y ∈ xs, 0 ≤ y) → 0 ≤ (recordAll xs).metrics.average_latency_ms) ∧
    (recordAll xs).metrics.average_latency_ms ≤ (recordAll xs).metrics.max_latency_ms ∧
    getMaxLatency m ≤ getMaxLatency (recordLatency m x) := by
  obtain ⟨-, -, havg, hmax⟩ := recordAll_state xs
  refine ⟨?_, ?_, ?_⟩
  · intro hnn
    rw [havg]
    exact div_nonneg (List.sum_nonneg hnn) (Nat.cast_nonneg _)
  · rw [havg, hmax]
    exact sum_div_length_le_foldl_max xs
  · simp only [getMaxLatency, recordLatency]
    split_ifs with h
    · exact le_of_lt h
    · exact le_refl _

/-- C4 amended-claim witness at the concrete records 1, 2 on a fresh monitor. -/
theorem C4_latency_invariants_witness :
    (0 ≤ (recordAll [1, 2]).metrics.average_latency_ms) ∧
    (recordAll [1, 2]).metrics.average_latency_ms ≤
      (recordAll [1, 2]).metrics.max_latency_ms ∧
    getMaxLatency fresh ≤ getMaxLatency (recordLatency fresh 3) := by
  have h := C4_latency_invariants [1, 2] fresh 3
  exact ⟨h.1 (by norm_num), h.2.1, h.2.2⟩

/-- C5: `resetMetrics` zeroes every counter, every gauge, and the whole latency
accumulator (sum, count, average, max), whatever their prior values. -/
theorem C5_reset_zeroes_all (m : PerformanceMonitor) :
    (resetMetrics m).metrics.messages_processed = 0 ∧
    (resetMetrics m).metrics.opportunities_detected = 0 ∧
    (resetMetrics m).metrics.trades_executed = 0 ∧
    (resetMetrics m).metrics.memory_usage_mb = 0 ∧
    (resetMetrics m).metrics.cpu_usage_percentage = 0 ∧
    (resetMetrics m).latency_sum = 0 ∧
    (resetMetrics m).latency_count = 0 ∧
    (resetMetrics m).metrics.average_latency_ms = 0 ∧
    (resetMetrics m).metrics.max_latency_ms = 0 :=
  ⟨rfl, rfl, rfl, rfl, rfl, rfl, rfl, rfl, rfl⟩

/-- C6: after any sequence of `start()`/`stop()` calls on a fresh monitor,
`start()` while running is a warning-emitting no-op, `stop()` while not
running is a no-op that leaves the monitor stopped, `start()` twice in a row
leaves exactly one background execution context, `stop()` twice in a row
leaves the monitor stopped with no background context, and there is never more
than one background execution context. -/
theorem C6_lifecycle_state_machine (ops : List LifecycleOp) :
    ((applyOps ops).running = true →
      start (applyOps ops) = (applyOps ops, true) ∧
      (start (applyOps ops)).1.active_threads = 1) ∧
    ((applyOps ops).running = false →
      stop (applyOps ops) = applyOps ops ∧ (applyOps ops).active_threads = 0) ∧
    (start (start (applyOps ops)).1).1.active_threads = 1 ∧
    (stop (stop (applyOps ops))).running = false ∧
    (stop (stop (applyOps ops))).active_threads = 0 ∧
    (applyOps ops).active_threads ≤ 1 := by
  have hI := threadInvariant_applyOps ops
  unfold threadInvariant at hI
  cases hb : (applyOps ops).running with
  | true =>
    rw [hb] at hI
    norm_num at hI
    refine ⟨fun _ => ⟨?_, ?_⟩, fun hfalse => absurd hfalse (by decide),
      ?_, ?_, ?_, ?_⟩ <;>
      simp [start, stop, hb, hI]
  | false =>
    rw [hb] at hI
    norm_num at hI
    refine ⟨fun htrue => absurd htrue (by decide), fun _ => ⟨?_, ?_⟩,
      ?_, ?_, ?_, ?_⟩ <;>
      simp [start, stop, hb, hI]

/-- C6 witness at the empty call sequence (a fresh, never-started monitor). -/
theorem C6_lifecycle_state_machine_witness :
    (stop (applyOps []) = applyOps [] ∧ (applyOps []).active_threads = 0) ∧
    (start (start (applyOps [])).1).1.active_threads = 1 ∧
    (stop (stop (applyOps []))).running = false := by
  have h := C6_lifecycle_state_machine []
  exact ⟨h.2.1 rfl, h.2.2.1, h.2.2.2.1⟩

/-- C8, counterexample: the claim says `start()` before `initialize()` fails
fast.  On a fresh monitor, on which `initialize` has never been called, the
code performs no precondition check: `start()` sets the monitor running,
spawns the background context, emits no warning, and proceeds with the default
1000 ms interval. -/
theorem C8_counterexample :
    fresh.initialized = false ∧
    fresh.monitoring_interval_ms = 1000 ∧
    (start fresh).1.running = true ∧
    (start fresh).1.active_threads = 1 ∧
    (start fresh).2 = false := by
  refine ⟨rfl, rfl, ?_, ?_, ?_⟩ <;> simp [start, fresh]

/-- C8 (amended): no lifecycle operation checks that `initialize` has run.
From any non-running state — initialized or not — `start()` proceeds normally:
it sets running, spawns one background context, emits no warning, leaves the
initialization state untouched and keeps whatever interval is stored (the
default-constructed monitor holds the default 1000 ms and is uninitialized). -/
theorem C8_start_unchecked (m : PerformanceMonitor) (h : m.running = false) :
    (start m).1.running = true ∧
    (start m).1.active_threads = m.active_threads + 1 ∧
    (start m).2 = false ∧
    (start m).1.initialized = m.initialized ∧
    (start m).1.monitoring_interval_ms = m.monitoring_interval_ms ∧
    fresh.monitoring_interval_ms = 1000 ∧
    fresh.initialized = false := by
  refine ⟨?_, ?_, ?_, ?_, ?_, rfl, rfl⟩ <;> simp [start, h]

/-- C8 amended-claim witness at a fresh (uninitialized) monitor. -/
theorem C8_start_unchecked_witness :
    (start fresh).1.running = true ∧
    (start fresh).1.active_threads = fresh.active_threads + 1 ∧
    (start fresh).2 = false ∧
    (start fresh).1.initialized = fresh.initialized ∧
    (start fresh).1.monitoring_interval_ms = fresh.monitoring_interval_ms ∧
    fresh.monitoring_interval_ms = 1000 ∧
    fresh.initialized = false :=
  C8_start_unchecked fresh rfl

/-- C3: in one `checkAlerts` pass, the callback of a kind is invoked exactly
when a callback is registered for it, its threshold is strictly positive, and
the current value strictly exceeds the threshold; each kind fires at most once
per pass (hence exactly once when the condition holds, and never on equality
or a non-positive threshold); and with non-throwing callbacks the invoked
callbacks are exactly the fired kinds. -/
theorem C3_alert_strict_threshold (m : PerformanceMonitor) :
    (AlertKind.latency ∈ checkAlertsFired m ↔
      m.latency_alert_callback = true ∧ 0 < m.latency_threshold_ms ∧
        m.latency_threshold_ms < getAverageLatency m) ∧
    (AlertKind.memory ∈ checkAlertsFired m ↔
      m.memory_alert_callback = true ∧ 0 < m.memory_threshold_mb ∧
        m.memory_threshold_mb < getMemoryUsage m) ∧
    (AlertKind.cpu ∈ checkAlertsFired m ↔
      m.cpu_alert_callback = true ∧ 0 < m.cpu_threshold_percentage ∧
        m.cpu_threshold_percentage < getCpuUsage m) ∧
    (checkAlertsFired m).count AlertKind.latency ≤ 1 ∧
    (checkAlertsFired m).count AlertKind.memory ≤ 1 ∧
    (checkAlertsFired m).count AlertKind.cpu ≤ 1 ∧
    checkAlertsRun m (fun _ => Except.ok ()) = (checkAlertsFired m, none) := by
  refine ⟨?_, ?_, ?_, ?_, ?_, ?_, runAlerts_ok _⟩ <;>
    unfold checkAlertsFired <;> split_ifs <;> simp_all

/-- C10: the within-threshold queries use an inclusive comparison — each
returns `true` exactly when the current value is `≤` the given threshold — so
at a value exactly equal to a configured alert threshold the monitor is
simultaneously within threshold and fires no alert for that kind. -/
theorem C10_within_threshold_inclusive (m : PerformanceMonitor) (t : ℚ) :
    (isLatencyWithinThreshold m t = true ↔ getAverageLatency m ≤ t) ∧
    (isMemoryWithinThreshold m t = true ↔ getMemoryUsage m ≤ t) ∧
    (isCpuWithinThreshold m t = true ↔ getCpuUsage m ≤ t) ∧
    (getAverageLatency m = m.latency_threshold_ms →
      isLatencyWithinThreshold m m.latency_threshold_ms = true ∧
      AlertKind.latency ∉ checkAlertsFired m) ∧
    (getMemoryUsage m = m.memory_threshold_mb →
      isMemoryWithinThreshold m m.memory_threshold_mb = true ∧
      AlertKind.memory ∉ checkAlertsFired m) ∧
    (getCpuUsage m = m.cpu_threshold_percentage →
      isCpuWithinThreshold m m.cpu_threshold_percentage = true ∧
      AlertKind.cpu ∉ checkAlertsFired m) := by
  refine ⟨?_, ?_, ?_, fun h => ⟨?_, ?_⟩, fun h => ⟨?_, ?_⟩, fun h => ⟨?_, ?_⟩⟩
  · simp [isLatencyWithinThreshold]
  · simp [isMemoryWithinThreshold]
  · simp [isCpuWithinThreshold]
  · simp [isLatencyWithinThreshold, h]
  · unfold checkAlertsFired
    split_ifs <;> simp_all
  · simp [isMemoryWithinThreshold, h]
  · unfold checkAlertsFired
    split_ifs <;> simp_all
  · simp [isCpuWithinThreshold, h]
  · unfold checkAlertsFired
    split_ifs <;> simp_all

/-- C10 witness at a fresh monitor, whose average latency (0) is exactly the
configured latency threshold (0). -/
theorem C10_within_threshold_inclusive_witness :
    (isLatencyWithinThreshold fresh 0 = true ↔ getAverageLatency fresh ≤ 0) ∧
    (isLatencyWithinThreshold fresh fresh.latency_threshold_ms = true ∧
      AlertKind.latency ∉ checkAlertsFired fresh) := by
  have h := C10_within_threshold_inclusive fresh 0
  exact ⟨h.1, h.2.2.2.1 rfl⟩

/-- A monitor whose latency and memory alerts are both configured and breached:
thresholds 1, current average latency 2, current memory usage 2. -/
def breachedMonitor : PerformanceMonitor :=
  { fresh with
    latency_alert_callback := true
    memory_alert_callback := true
    latency_threshold_ms := 1
    memory_threshold_mb := 1
    metrics := { fresh.metrics with average_latency_ms := 2, memory_usage_mb := 2 } }

/-- A callback behaviour whose latency callback throws. -/
def throwingCallback : AlertKind → Except String Unit
  | AlertKind.latency => Except.error "boom"
  | AlertKind.memory => Except.ok ()
  | AlertKind.cpu => Except.ok ()

/-- C7, counterexample: the claim says a throwing callback is caught inside the
alert-evaluation pass itself and evaluation continues.  With the latency and
memory alerts both breached and a latency callback that throws, `checkAlerts`
propagates the exception and the memory callback — although its alert fired —
is never invoked. -/
theorem C7_counterexample :
    (checkAlertsRun breachedMonitor throwingCallback).2 = some "boom" ∧
    AlertKind.memory ∈ checkAlertsFired breachedMonitor ∧
    AlertKind.memory ∉ (checkAlertsRun breachedMonitor throwingCallback).1 := by
  refine ⟨?_, ?_, ?_⟩
  · norm_num [checkAlertsRun, checkAlertsFired, breachedMonitor, fresh, getAverageLatency,
      getMemoryUsage, getCpuUsage, runAlerts, throwingCallback]
  · norm_num [checkAlertsFired, breachedMonitor, fresh, getAverageLatency,
      getMemoryUsage, getCpuUsage]
  · norm_num [checkAlertsRun, checkAlertsFired, breachedMonitor, fresh, getAverageLatency,
      getMemoryUsage, getCpuUsage, runAlerts, throwingCallback]
    decide

/-- C7 (amended): an exception thrown by a threshold callback propagates out of
`checkAlerts`, aborting the remaining alert checks of that pass; it is then
caught by the monitoring loop's per-iteration handler, so the loop continues
(it stops only when monitoring is disabled) and never terminates because of a
callback failure. -/
theorem C7_exception_containment (m : PerformanceMonitor)
    (cb : AlertKind → Except String Unit) (memv cpuv : ℚ) :
    (monitoringLoopStep m cb memv cpuv).2 = m.monitoring_enabled ∧
    (∀ k ks e, checkAlertsFired m = k :: ks → cb k = Except.error e →
      checkAlertsRun m cb = ([k], some e)) := by
  constructor
  · unfold monitoringLoopStep
    cases hb : m.monitoring_enabled with
    | true =>
      simp only [hb, if_true]
      cases (checkAlertsRun (recordCpuUsage (recordMemoryUsage m memv) cpuv) cb).2 <;> rfl
    | false => simp [hb]
  · intro k ks e hfired hthrow
    unfold checkAlertsRun
    rw [hfired]
    unfold runAlerts
    rw [hthrow]

/-- C7 amended-claim witness: the breached monitor with the throwing latency
callback.  The loop-continuation flag matches `monitoring_enabled`, and the
propagated exception of the pass is exactly the latency callback's. -/
theorem C7_exception_containment_witness :
    (monitoringLoopStep breachedMonitor throwingCallback 0 0).2 =
      breachedMonitor.monitoring_enabled ∧
    checkAlertsRun breachedMonitor throwingCallback = ([AlertKind.latency], some "boom") := by
  have h := C7_exception_containment breachedMonitor throwingCallback 0 0
  refine ⟨h.1, h.2 AlertKind.latency [AlertKind.memory] "boom" ?_ rfl⟩
  norm_num [checkAlertsFired, breachedMonitor, fresh, getAverageLatency,
    getMemoryUsage, getCpuUsage]

/-- C9: counter increments are modelled as indivisible atomic steps; replaying
any interleaving (schedule) in which each of `N` threads performs `M`
increments yields a final counter of exactly `N × M` — no update is lost — and
each single increment operation unconditionally adds exactly 1 to its counter. -/
theorem C9_counter_no_lost_updates (N M : Nat) (sched : List Nat)
    (m : PerformanceMonitor)
    (hcount : ∀ t < N, sched.count t = M) (hmem : ∀ t ∈ sched, t < N)
    (_hN : 8 ≤ N) (hM : 1000 ≤ M) :
    applySchedule sched 0 = N * M ∧
    (recordMessageProcessed m).metrics.messages_processed =
      m.metrics.messages_processed + 1 ∧
    (recordOpportunityDetected m).metrics.opportunities_detected =
      m.metrics.opportunities_detected + 1 ∧
    (recordTradeExecuted m).metrics.trades_executed =
      m.metrics.trades_executed + 1 := by
  refine ⟨?_, rfl, rfl, rfl⟩
  rw [applySchedule_eq_length, Nat.zero_add]
  exact length_eq_of_count N M sched hcount hmem (by omega)

/-- C9 witness: the schedule in which threads 0..7 run to completion one after
the other, each performing 1000 increments; the final counter is 8000. -/
theorem C9_counter_no_lost_updates_witness :
    applySchedule ((List.range 8).flatMap fun t => List.replicate 1000 t) 0 = 8 * 1000 ∧
    (recordMessageProcessed fresh).metrics.messages_processed =
      fresh.metrics.messages_processed + 1 ∧
    (recordOpportunityDetected fresh).metrics.opportunities_detected =
      fresh.metrics.opportunities_detected + 1 ∧
    (recordTradeExecuted fresh).metrics.trades_executed =
      fresh.metrics.trades_executed + 1 := by
  refine C9_counter_no_lost_updates 8 1000 _ fresh ?_ ?_ ?_ ?_
  · intro t ht
    rw [count_range_flatMap_replicate]
    exact if_pos ht
  · exact fun t ht => mem_range_flatMap_replicate 8 1000 t ht
  · norm_num
  · norm_num

end Arbitrage
